import Mathlib

set_option linter.all false

/-!
Formal model of the vSMTP core engine, translated from the Rust sources
(`vsmtp-protocol`, `vsmtp-server`, `vsmtp-common`), together with theorems
settling the specification claims about it.

Conventions used throughout:
* machine integers become `Nat`/`Int` (no overflow is relevant to the
  modelled code paths);
* fallible operations return `Option`/`Except`-like values;
* asynchronous effects (queue writes, renames, channel sends) are modelled
  as explicit event traces;
* external crates (the `addr` address parser, SASL mechanisms, the rule
  engine) are abstracted by parameters, as noted at each definition.
-/

/-- SMTP reply (vsmtp-common `Reply`), modelled by its numeric code and its
serialized text.  Only equality of replies matters to the claims below. -/
structure Reply where
  code : Nat
  text : String
deriving DecidableEq, Repr

/-- SMTP command verbs, transcribed from `vsmtp-protocol/src/command.rs`
(`enum Verb`). -/
inductive Verb
  | helo
  | ehlo
  | mailFrom
  | rcptTo
  | data
  | quit
  | rset
  | help
  | noop
  | startTls
  | auth
  | unknown
deriving DecidableEq, Repr

/-- Transcribes `Verb::is_bufferable` (command.rs lines 614-622):
`!matches!(self, Self::Ehlo | Self::Data | Self::Quit | Self::Noop)`. -/
def Verb.is_bufferable : Verb → Bool
  | .ehlo | .data | .quit | .noop => false
  | _ => true

/-- State of a `WindowWriter` (writer.rs): the sequence of replies already
written to the socket, in order, and the out-buffer of pending replies. -/
structure WindowWriter where
  out : List Reply
  buffer : List Reply
deriving DecidableEq, Repr

/-- Transcribes `WindowWriter::send_reply` (writer.rs lines 117-135): when
`verb.is_bufferable()` the buffer is flushed (if non-empty) and the reply is
written directly; otherwise the reply is pushed onto the buffer.  Flushing an
empty buffer writes nothing, so the `if !self.buffer.is_empty()` guard is
behaviourally the unconditional append below. -/
def WindowWriter.send_reply (w : WindowWriter) (reply : Reply) (verb : Verb) :
    WindowWriter :=
  if verb.is_bufferable then
    { out := w.out ++ w.buffer ++ [reply], buffer := [] }
  else
    { out := w.out, buffer := w.buffer ++ [reply] }

/-- Transcribes `WindowWriter::flush` (writer.rs lines 138-148): all buffered
replies are written in order and the buffer is cleared. -/
def WindowWriter.flush (w : WindowWriter) : WindowWriter :=
  { out := w.out ++ w.buffer, buffer := [] }

/-- Observable events while the receiver processes one pipelined batch:
`proc v` is the dispatch of a command with verb `v` to its handler, and
`write r` is the reply `r` reaching the socket. -/
inductive Event
  | proc (verb : Verb)
  | write (reply : Reply)
deriving DecidableEq, Repr

/-- Write events produced by one `WindowWriter::send_reply` call: the
buffered replies (flushed first) followed by the direct write when the verb
is bufferable, nothing otherwise. -/
def sendReplyEvents (w : WindowWriter) (reply : Reply) (verb : Verb) :
    List Event :=
  if verb.is_bufferable then (w.buffer ++ [reply]).map Event.write else []

/-- Write events produced by one `WindowWriter::flush` call. -/
def flushEvents (w : WindowWriter) : List Event :=
  w.buffer.map Event.write

/-- Transcribes the command loop of `Receiver::smtp_handshake` (receiver.rs
lines 470-546) for one pipelined batch: each command is dispatched to its
handler in order (a `proc` event), the reply the handler produces (if any)
goes through `send_reply`, and after the whole batch the writer is flushed.
A batch entry pairs the verb with the reply its handler returns (`none` when
the handler emits no reply, e.g. a successful AUTH initiation). -/
def batchTrace : WindowWriter → List (Verb × Option Reply) →
    WindowWriter × List Event
  | w, [] => (w.flush, flushEvents w)
  | w, (verb, none) :: rest =>
    let (w', evs) := batchTrace w rest
    (w', Event.proc verb :: evs)
  | w, (verb, some r) :: rest =>
    let evs := sendReplyEvents w r verb
    let w' := w.send_reply r verb
    let (w'', evs') := batchTrace w' rest
    (w'', Event.proc verb :: (evs ++ evs'))

/-- Reply `354 Start mail input` sent for DATA (used as a concrete input). -/
def reply354 : Reply :=
  ⟨354, "354 Start mail input; end with <CRLF>.<CRLF>\r\n"⟩

/-- Reply `250 Ok` (used as a concrete input). -/
def reply250 : Reply :=
  ⟨250, "250 Ok\r\n"⟩

/-- Verdict status of the rule engine, transcribed from
`vsmtp-common/src/status.rs` (`enum Status`).  `Delegated` carries a live
`SmtpConnection` in the source; it is modelled by an opaque identifier. -/
inductive Status
  | accept (reply : Reply)
  | next
  | deny (reply : Reply)
  | faccept (reply : Reply)
  | quarantine (name : String)
  | delegated (conn : Nat)
  | delegationResult
deriving DecidableEq, Repr

/-- Modelled from the spec: the named on-disk queues (§3 "Queues": `working`,
`deliver`, `deferred`, `delegated`, `dead`, `quarantine/<name>`).  The
`QueueID` enum itself lives in the vqueue crate, whose defining file is not
among the provided sources; the variants follow its uses throughout
`vsmtp-server` and the spec. -/
inductive QueueID
  | working
  | deliver
  | deferred
  | delegated
  | dead
  | quarantine (name : String)
deriving DecidableEq, Repr

/-- Persistent or outward-visible effects performed by the queue-pipeline
processors, in the order they are attempted.  Reads (`get_ctx`, `get_msg`,
`get_both`) have no persistent effect and are not recorded. -/
inductive Effect
  | setSkippedDelegationResult
  | markAllRecipientsFailed
  | writeCtx (queue : QueueID)
  | writeMsg
  | moveTo (source target : QueueID)
  | removeBoth (queue : QueueID)
  | sendToWorking (delegated : Bool)
  | sendToDelivery (delegated : Bool)
  | delegateSend (conn : Nat)
deriving DecidableEq, Repr

/-- Runs a planned sequence of effects the way a chain of Rust `?` operators
does: effects are attempted in order and the first failure (as decided by the
oracle `ok`) aborts the rest.  Returns the successfully performed effects and
whether the whole plan completed. -/
def runPlan (ok : Effect → Bool) : List Effect → List Effect × Bool
  | [] => ([], true)
  | e :: rest =>
    if ok e then ((e :: (runPlan ok rest).1), (runPlan ok rest).2)
    else ([], false)

/-- Reply `554 permanent problems with the remote server` (the `denied`
value built at the top of `Handler::on_message_completed_inner`). -/
def replyDenied554 : Reply :=
  ⟨554, "554 permanent problems with the remote server\r\n"⟩

/-- Last two steps of `Handler::on_message_completed_inner`
(post_transaction.rs lines 153-168): build the `ProcessMessage` (delegated or
not) and send it on the channel selected by `should_skip_working`; a send
failure yields the `denied` reply. -/
def completedSendStep (ok : Effect → Bool) (tr : List Effect)
    (shouldSkipWorking : Option Bool) (delegated : Bool) :
    List Effect × Option Reply :=
  match shouldSkipWorking with
  | some false =>
    if ok (Effect.sendToWorking delegated) then
      (tr ++ [Effect.sendToWorking delegated], none)
    else (tr, some replyDenied554)
  | some true =>
    if ok (Effect.sendToDelivery delegated) then
      (tr ++ [Effect.sendToDelivery delegated], none)
    else (tr, some replyDenied554)
  | none => (tr, none)

/-- Common tail of `Handler::on_message_completed_inner`
(post_transaction.rs lines 139-168): write the message body, then the context
into the selected queue (if any), then do the channel send; each failure
returns the `denied` reply. -/
def completedTail (ok : Effect → Bool) (tr : List Effect)
    (queue : Option QueueID) (shouldSkipWorking : Option Bool)
    (delegated : Bool) : List Effect × Option Reply :=
  if ok Effect.writeMsg then
    let tr := tr ++ [Effect.writeMsg]
    match queue with
    | some q =>
      if ok (Effect.writeCtx q) then
        completedSendStep ok (tr ++ [Effect.writeCtx q]) shouldSkipWorking
          delegated
      else (tr, some replyDenied554)
    | none => completedSendStep ok tr shouldSkipWorking delegated
  else (tr, some replyDenied554)

/-- Transcribes `Handler::on_message_completed_inner` (post_transaction.rs
lines 80-169).  Inputs: the `skipped` status stored in the finished context,
and the parsed `id` argument of the `X-VSMTP-DELEGATION` header (`none` when
the header or its `id` is absent, `some none` when the id is present but not
a valid uuid, `some (some u)` when it parses — the header machinery lives in
vsmtp-mail-parser, not among the provided sources).  Output: the performed
effects and the reply returned to the receiver (`none` on success, the
`denied` 554 on any failure or on a `Delegated` status). -/
def on_message_completed_inner (ok : Effect → Bool) (skipped : Option Status)
    (delegationHeaderId : Option (Option Nat)) : List Effect × Option Reply :=
  match skipped with
  | some (Status.quarantine path) =>
    if ok (Effect.writeCtx (QueueID.quarantine path)) then
      completedTail ok [Effect.writeCtx (QueueID.quarantine path)] none none
        false
    else ([], some replyDenied554)
  | some (Status.delegated _) => ([], some replyDenied554)
  | some Status.delegationResult =>
    match delegationHeaderId with
    | some none => ([], some replyDenied554)
    | _ => completedTail ok [] none (some false) true
  | some (Status.deny _) =>
    completedTail ok [Effect.markAllRecipientsFailed] (some QueueID.dead) none
      false
  | none | some Status.next =>
    completedTail ok [] (some QueueID.working) (some false) false
  | some _ =>
    completedTail ok [] (some QueueID.deliver) (some true) false

/-- Transcribes the per-verdict effect sequence of the working processor
`handle_one` (working/mod.rs lines 56-191).  The `Quarantine` and `Delegated`
branches perform their rename (and, for `Delegated`, the skipped-state
mutation, body write and send to the delegator) inside the `match`; the
remaining branches select `move_to_queue` / `send_to_delivery` /
`write_email` flags and the common tail then performs, in this order, the
body write, the rename, and the channel send. -/
def workingPlan (skipped : Option Status) (origin : QueueID) : List Effect :=
  match skipped with
  | some (Status.quarantine path) =>
    [Effect.moveTo origin (QueueID.quarantine path), Effect.writeMsg]
  | some (Status.delegated conn) =>
    [Effect.setSkippedDelegationResult, Effect.moveTo origin QueueID.delegated,
     Effect.writeMsg, Effect.delegateSend conn]
  | some Status.delegationResult =>
    [Effect.writeMsg, Effect.sendToDelivery true]
  | some (Status.deny _) =>
    [Effect.markAllRecipientsFailed, Effect.writeMsg,
     Effect.moveTo origin QueueID.dead]
  | none | some Status.next =>
    [Effect.writeMsg, Effect.moveTo origin QueueID.deliver,
     Effect.sendToDelivery false]
  | some _ =>
    [Effect.writeMsg, Effect.moveTo origin QueueID.deliver,
     Effect.sendToDelivery false]

/-- Transcribes the working processor `handle_one` (working/mod.rs lines
56-191): the origin queue is `delegated` when the `ProcessMessage` carries
the delegation flag and `working` otherwise, and the branch effect plan is
executed with each fallible step aborting the rest on failure (the chain of
`?` operators). -/
def working_handle_one (skipped : Option Status) (fromDelegation : Bool)
    (ok : Effect → Bool) : List Effect × Bool :=
  runPlan ok (workingPlan skipped
    (if fromDelegation then QueueID.delegated else QueueID.working))

/-- Recognizer for queue renames. -/
def isRename : Effect → Bool
  | .moveTo _ _ => true
  | _ => false

/-- Recognizer for body writes. -/
def isBodyWrite : Effect → Bool
  | .writeMsg => true
  | _ => false

/-- Recognizer for scheduler-channel sends. -/
def isChannelSend : Effect → Bool
  | .sendToWorking _ => true
  | .sendToDelivery _ => true
  | _ => false

/-- Recognizer for the skipped-state mutation. -/
def isSkippedMutation : Effect → Bool
  | .setSkippedDelegationResult => true
  | _ => false

/-- Ordering discipline on effect traces: after any effect satisfying `p`,
no effect satisfying `q` occurs. -/
def noneAfter (p q : Effect → Bool) : List Effect → Bool
  | [] => true
  | e :: rest => (!p e || rest.countP q == 0) && noneAfter p q rest

/-- Modelled from the spec: per-recipient transfer status (§3 "Transfer
Status": `Waiting | Sent | HeldBack{errors} | Failed`); the defining
`transfer` module of vsmtp-common is not among the provided sources.  An
error entry is reduced to its timestamp in seconds, the only field the
deferred sweep reads (`Error::timestamp`). -/
inductive TransferStatus
  | waiting
  | sent
  | heldBack (errors : List Int)
  | failed
deriving DecidableEq, Repr

/-- Delivery map of a finished context (`ctx.rcpt_to.delivery`): the list of
per-transport recipient lists, each recipient paired with its transfer
status.  The transport keys play no role in the deferred sweep and are
dropped. -/
abbrev DeliveryMap := List (List (String × TransferStatus))

/-- Transcribes the `last_error` computation of the deferred `handle_one`
(deferred.rs lines 78-87): each HeldBack recipient contributes the timestamp
of its last recorded error (nothing when its error list is empty); the code
then takes the *minimum* of these timestamps. -/
def lastErrorTimestamps (delivery : DeliveryMap) : List Int :=
  delivery.flatten.filterMap fun i =>
    match i.2 with
    | TransferStatus.heldBack errors => errors.getLast?
    | _ => none

/-- Transcribes the `held_back_count` computation of the deferred
`handle_one` (deferred.rs lines 89-95): the number of recipients whose
status is HeldBack. -/
def heldBackCount (delivery : DeliveryMap) : Nat :=
  delivery.flatten.countP fun i =>
    match i.2 with
    | TransferStatus.heldBack _ => true
    | _ => false

/-- Transcribes the skip decision of the deferred `handle_one` (deferred.rs
lines 97-109): with `last_error` the minimum of the per-recipient last-error
timestamps, skip when `last_error + held_back_count × (60 × 5) seconds`
exceeds the sweep instant; a message without any recorded HeldBack error is
never skipped. -/
def deferredSkips (delivery : DeliveryMap) (flushingAt : Int) : Bool :=
  match (lastErrorTimestamps delivery).min? with
  | some t => decide (t + (heldBackCount delivery : Int) * 300 > flushingAt)
  | none => false

/-- Modelled from the spec: the outcome classifier of one delivery attempt
(§4.11 `SenderOutcome`).  `split_and_sort_and_send`, which produces it, lives
in the current vsmtp-delivery crate, not among the provided sources, so the
outcome is a parameter of the models below. -/
inductive SenderOutcome
  | moveToDead
  | moveToDeferred
  | removeFromDisk
deriving DecidableEq, Repr

/-- Transcribes the outcome dispatch of the deferred `handle_one`
(deferred.rs lines 113-135): MoveToDead renames deferred → dead,
MoveToDeferred rewrites the context in place in `deferred` (`write_ctx`, no
rename), RemoveFromDisk unlinks both files.  The body is never rewritten. -/
def deferredDispatch : SenderOutcome → List Effect
  | .moveToDead => [Effect.moveTo QueueID.deferred QueueID.dead]
  | .moveToDeferred => [Effect.writeCtx QueueID.deferred]
  | .removeFromDisk => [Effect.removeBoth QueueID.deferred]

/-- Transcribes the deferred `handle_one` (deferred.rs lines 66-136): load
the context, evaluate the eligibility condition, return without effect when
the message is held back longer, otherwise dispatch on the sender outcome. -/
def deferred_handle_one (delivery : DeliveryMap) (flushingAt : Int)
    (outcome : SenderOutcome) : Option (List Effect) :=
  if deferredSkips delivery flushingAt then none
  else some (deferredDispatch outcome)

/-- Transcribes the outcome dispatch of the delivery `handle_one`
(deliver.rs lines 155-177), parameterized by the origin queue (`deliver`, or
`delegated` for a delegated message): MoveToDead and MoveToDeferred rename
and then rewrite the body; RemoveFromDisk unlinks both files. -/
def deliveryDispatch (origin : QueueID) : SenderOutcome → List Effect
  | .moveToDead => [Effect.moveTo origin QueueID.dead, Effect.writeMsg]
  | .moveToDeferred => [Effect.moveTo origin QueueID.deferred, Effect.writeMsg]
  | .removeFromDisk => [Effect.removeBoth origin]

/-- Modelled from the spec: a SASL mechanism, reduced to its name and its
`must_be_under_tls` flag (§9: "The SASL mechanism list and must_be_under_tls
partition are config-driven"); the `Mechanism` enum lives in vsmtp-common's
auth module, not among the provided sources. -/
structure Mechanism where
  name : String
  must_be_under_tls : Bool
deriving DecidableEq, Repr

/-- AUTH part of the ESMTP server configuration
(`config.server.esmtp.auth`). -/
structure AuthConfig where
  mechanisms : List Mechanism
  enable_dangerous_mechanism_in_clair : Bool
deriving DecidableEq, Repr

/-- ESMTP part of the server configuration consumed by `build_ehlo_reply`
(vsmtp-config `FieldServerESMTP`, as used in pre_transaction.rs). -/
structure EsmtpConfig where
  auth : Option AuthConfig
  eightbitmime : Bool
  smtputf8 : Bool
  pipelining : Bool
  chunking : Bool
  size : Nat
deriving DecidableEq, Repr

/-- Transcribes the AUTH-line computation of `build_ehlo_reply`
(pre_transaction.rs lines 34-95): the configured mechanisms are partitioned
by `must_be_under_tls()` into `(must_be_secured, rest)`; under TLS the line
lists the first component; in clear it lists the second component, or — when
`enable_dangerous_mechanism_in_clair` is set — the second component followed
by the first (`[secured, plain].concat()` with `(plain, secured)` naming the
partition). -/
def ehloAuthMechanisms (esmtp : EsmtpConfig) (is_transaction_secured : Bool) :
    Option (List Mechanism) :=
  esmtp.auth.map fun auth =>
    let parts := auth.mechanisms.partition fun m => m.must_be_under_tls
    if is_transaction_secured then parts.1
    else if auth.enable_dangerous_mechanism_in_clair then parts.2 ++ parts.1
    else parts.2

/-- Transcribes the extension-line list of `build_ehlo_reply`
(pre_transaction.rs lines 100-130): server name first, the AUTH line when
configured, `8BITMIME` when enabled, `SMTPUTF8` only when also `8BITMIME`,
`STARTTLS` only when not already under TLS, `PIPELINING` and `CHUNKING` per
configuration, `DSN` always, and `SIZE` as the final line.  The
continuation-marker rendering is not modelled. -/
def buildEhloLines (serverName : String) (esmtp : EsmtpConfig)
    (is_transaction_secured : Bool) : List String :=
  ([some serverName,
    (ehloAuthMechanisms esmtp is_transaction_secured).map fun ms =>
      "AUTH " ++ String.intercalate " " (ms.map Mechanism.name),
    if esmtp.eightbitmime then some "8BITMIME" else none,
    if esmtp.eightbitmime && esmtp.smtputf8 then some "SMTPUTF8" else none,
    if !is_transaction_secured then some "STARTTLS" else none,
    if esmtp.pipelining then some "PIPELINING" else none,
    if esmtp.chunking then some "CHUNKING" else none,
    some "DSN",
    some ("SIZE " ++ toString esmtp.size)]).filterMap id

/-- Mechanism `PLAIN`, marked as requiring TLS (concrete input). -/
def mechPLAIN : Mechanism := ⟨"PLAIN", true⟩

/-- Mechanism `ANONYMOUS`, not requiring TLS (concrete input). -/
def mechANON : Mechanism := ⟨"ANONYMOUS", false⟩

/-- Concrete ESMTP configuration advertising both mechanisms, without
`enable_dangerous_mechanism_in_clair`. -/
def esmtpEx : EsmtpConfig :=
  ⟨some ⟨[mechPLAIN, mechANON], false⟩, true, true, true, false, 20000000⟩

/-- Command arguments are byte strings in the source (`UnparsedArgs`); the
modelled inputs are ASCII, so bytes are represented by characters. -/
abbrev Bytes := List Char

/-- Parse errors of the argument parsers (vsmtp-protocol `ParseArgsError`,
restricted to the variants reachable in the modelled paths). -/
inductive ParseArgsError
  | invalidArgs
  | emailUnavailable
  | invalidMailAddress (mail : String)
deriving DecidableEq, Repr

/-- Rust `u8::is_ascii_whitespace`: space, tab, LF, FF, CR. -/
def isAsciiWhitespace (c : Char) : Bool :=
  c == ' ' || c == '\t' || c == '\n' || c == '\x0C' || c == '\r'

/-- Rust `eq_ignore_ascii_case` on byte strings (the modelled inputs are
ASCII, where `Char.toUpper` agrees with ASCII case folding). -/
def eqIgnoreAsciiCase (a b : Bytes) : Bool :=
  a.map Char.toUpper == b.map Char.toUpper

/-- Transcribes `strip_suffix_crlf!` (command.rs lines 21-26). -/
def stripSuffixCRLF (value : Bytes) : Option Bytes :=
  if List.isSuffixOf ("\r\n".toList) value then some value.dropLast.dropLast
  else none

/-- Transcribes `strip_quote` (command.rs lines 28-34): strip a leading `<`
and a trailing `>`. -/
def strip_quote (input : Bytes) : Option Bytes :=
  match input with
  | '<' :: rest =>
    if rest.getLast? == some '>' then some rest.dropLast else none
  | _ => none

/-- Transcribes `split_args` (command.rs lines 191-196): split at the first
`=` into key and value. -/
def split_args (slice : Bytes) : Option (Bytes × Bytes) :=
  match slice.findIdx? (fun c => c == '=') with
  | some pos => some (slice.take pos, slice.drop (pos + 1))
  | none => none

/-- Rust `str::parse::<usize>` restricted to plain digit strings (a leading
`+`, which Rust also accepts, is immaterial to the claims). -/
def parseNatDigits (value : Bytes) : Option Nat :=
  if value.isEmpty then none
  else if value.all Char.isDigit then
    some (value.foldl (fun acc c => acc * 10 + (c.toNat - '0'.toNat)) 0)
  else none

/-- Transcribes `MimeBodyType` (command.rs lines 95-105). -/
inductive MimeBodyType
  | sevenBit
  | eightBitMime
deriving DecidableEq, Repr

/-- Strum serializations of `MimeBodyType`, in declaration order. -/
def mimeBodyVariants : List (Bytes × MimeBodyType) :=
  [("7BIT".toList, MimeBodyType.sevenBit),
   ("8BITMIME".toList, MimeBodyType.eightBitMime)]

/-- Transcribes the BODY value lookup of `MailFromArgs::parse_arguments`
(command.rs lines 300-309): the first variant that is a case-insensitive
prefix of the value; `none` when no variant matches (the source then stores
`None` and succeeds). -/
def parseMimeBody (value : Bytes) : Option MimeBodyType :=
  (mimeBodyVariants.find? fun i =>
    decide (i.1.length ≤ value.length)
      && eqIgnoreAsciiCase (value.take i.1.length) i.1).map (·.2)

/-- Transcribes `DsnReturn` (command.rs lines 111-119). -/
inductive DsnReturn
  | full
  | headers
deriving DecidableEq, Repr

/-- Transcribes `MailFromArgs` (command.rs lines 121-139).  A validated
`Address` is represented by its full text (the address syntax itself is
checked by the external `addr` crate, abstracted as a predicate below). -/
structure MailFromArgs where
  reverse_path : Option String
  mime_body_type : Option MimeBodyType
  size : Option Nat
  use_smtputf8 : Bool
  envelop_id : Option String
  ret : Option DsnReturn
deriving DecidableEq, Repr

/-- Transcribes `MailFromArgs::parse_arguments` (command.rs lines 292-351):
note that the `SIZE` arm rejects only when `mime_body_type` is already set —
it does not test `size` itself. -/
def MailFromArgs.parse_arguments (args : MailFromArgs) (raw : Bytes) :
    Except ParseArgsError MailFromArgs :=
  match split_args raw with
  | none => Except.error ParseArgsError.invalidArgs
  | some (key, value) =>
    if eqIgnoreAsciiCase key "BODY".toList then
      if args.mime_body_type.isSome then Except.error ParseArgsError.invalidArgs
      else Except.ok { args with mime_body_type := parseMimeBody value }
    else if eqIgnoreAsciiCase key "SIZE".toList then
      if args.mime_body_type.isSome then Except.error ParseArgsError.invalidArgs
      else
        match parseNatDigits value with
        | some n => Except.ok { args with size := some n }
        | none => Except.error ParseArgsError.invalidArgs
    else if eqIgnoreAsciiCase key "RET".toList then
      if args.ret.isSome then Except.error ParseArgsError.invalidArgs
      else if eqIgnoreAsciiCase value "FULL".toList then
        Except.ok { args with ret := some DsnReturn.full }
      else if eqIgnoreAsciiCase value "HDRS".toList then
        Except.ok { args with ret := some DsnReturn.headers }
      else Except.error ParseArgsError.invalidArgs
    else if eqIgnoreAsciiCase key "ENVID".toList then
      if args.envelop_id.isSome then Except.error ParseArgsError.invalidArgs
      else Except.ok { args with envelop_id := some (String.mk value) }
    else Except.error ParseArgsError.invalidArgs

/-- Transcribes `MailFromArgs::parse_options` (command.rs lines 353-361):
only the exact (case-sensitive) `SMTPUTF8` flag is accepted. -/
def MailFromArgs.parse_options (args : MailFromArgs) (raw : Bytes) :
    Except ParseArgsError MailFromArgs :=
  if raw = "SMTPUTF8".toList then Except.ok { args with use_smtputf8 := true }
  else Except.error ParseArgsError.invalidArgs

/-- Transcribes `TryFrom<UnparsedArgs> for MailFromArgs` (command.rs lines
364-412), parameterized by the external `addr` crate's address validator
`addrOk`: strip CRLF, split on ASCII whitespace dropping empty tokens, strip
`<`/`>` from the mailbox (empty = null sender), fold the remaining tokens
through `parse_arguments` (`=` present) or `parse_options`, then validate the
mailbox (rejecting non-ASCII mailboxes unless SMTPUTF8 was declared). -/
def MailFromArgs.try_from (addrOk : String → Bool) (value : Bytes) :
    Except ParseArgsError MailFromArgs :=
  match stripSuffixCRLF value with
  | none => Except.error ParseArgsError.invalidArgs
  | some value =>
    match (List.splitOnP isAsciiWhitespace value).filter
        (fun s => !s.isEmpty) with
    | [] => Except.error ParseArgsError.invalidArgs
    | first :: rest =>
      match strip_quote first with
      | none => Except.error ParseArgsError.invalidArgs
      | some mailbox =>
        let mailboxOpt : Option String :=
          if mailbox.isEmpty then none else some (String.mk mailbox)
        let start : MailFromArgs :=
          { reverse_path := none, mime_body_type := none, size := none,
            use_smtputf8 := false, envelop_id := none, ret := none }
        match rest.foldlM
            (fun (acc : MailFromArgs) arg =>
              if arg.contains '=' then acc.parse_arguments arg
              else acc.parse_options arg) start with
        | Except.error e => Except.error e
        | Except.ok result =>
          match mailboxOpt with
          | some mailbox =>
            if !result.use_smtputf8
                && !(mailbox.toList.all fun c => c.toNat ≤ 127) then
              Except.error ParseArgsError.emailUnavailable
            else if addrOk mailbox then
              Except.ok { result with reverse_path := some mailbox }
            else Except.error (ParseArgsError.invalidMailAddress mailbox)
          | none => Except.ok { result with reverse_path := none }

/-- Transcribes `NotifyOn` (command.rs lines 141-158); `set` is the source's
`Some {success, failure, delay}` variant. -/
inductive NotifyOn
  | never
  | set (success failure delay : Bool)
deriving DecidableEq, Repr

/-- Transcribes `OriginalRecipient` (command.rs lines 160-168). -/
structure OriginalRecipient where
  addr_type : String
  mailbox : String
deriving DecidableEq, Repr

/-- Transcribes `RcptToArgs` (command.rs lines 170-179). -/
structure RcptToArgs where
  forward_path : String
  original_forward_path : Option OriginalRecipient
  notify_on : NotifyOn
deriving DecidableEq, Repr

/-- Positions of the `|` separators in a NOTIFY value
(`memchr::memchr_iter(b'|', value)`, command.rs line 452). -/
def pipePositions (value : Bytes) : List Nat :=
  value.enum.filterMap fun i => if i.2 = '|' then some i.1 else none

/-- One iteration of the NOTIFY scanning loop (command.rs lines 453-506),
carrying `(begin, notify)`.  The scanned segment is `value[begin..=pos]` —
inclusive of the `|` at `pos` — and the loop then sets `begin = pos` (not
`pos + 1`).  With a `notify` already `Some(Never)`, every segment falls into
either the NEVER-exclusivity arm or the catch-all arm, both `InvalidArgs`. -/
def notifyStep (value : Bytes) (st : Nat × Option NotifyOn) (pos : Nat) :
    Except ParseArgsError (Nat × Option NotifyOn) :=
  let v := (value.drop st.1).take (pos + 1 - st.1)
  match st.2 with
  | some NotifyOn.never => Except.error ParseArgsError.invalidArgs
  | some (NotifyOn.set success failure delay) =>
    if eqIgnoreAsciiCase v "SUCCESS".toList then
      Except.ok (pos, some (NotifyOn.set true failure delay))
    else if eqIgnoreAsciiCase v "FAILURE".toList then
      Except.ok (pos, some (NotifyOn.set success true delay))
    else if eqIgnoreAsciiCase v "DELAY".toList then
      Except.ok (pos, some (NotifyOn.set success failure true))
    else Except.error ParseArgsError.invalidArgs
  | none =>
    if eqIgnoreAsciiCase v "NEVER".toList then
      Except.ok (pos, some NotifyOn.never)
    else if eqIgnoreAsciiCase v "SUCCESS".toList then
      Except.ok (pos, some (NotifyOn.set true false false))
    else if eqIgnoreAsciiCase v "FAILURE".toList then
      Except.ok (pos, some (NotifyOn.set false true false))
    else if eqIgnoreAsciiCase v "DELAY".toList then
      Except.ok (pos, some (NotifyOn.set false false true))
    else Except.error ParseArgsError.invalidArgs

/-- Transcribes `RcptToArgs::parse_arguments` (command.rs lines 414-512).
The NOTIFY arm runs the scanning loop for its error effect only: the local
`notify` it accumulates is never assigned to `self.notify_on` in the source,
so on success the arguments are returned unchanged. -/
def RcptToArgs.parse_arguments (addrOk : String → Bool) (args : RcptToArgs)
    (raw : Bytes) : Except ParseArgsError RcptToArgs :=
  match split_args raw with
  | none => Except.error ParseArgsError.invalidArgs
  | some (key, value) =>
    if eqIgnoreAsciiCase key "ORCPT".toList then
      if args.original_forward_path.isSome then
        Except.error ParseArgsError.invalidArgs
      else
        match value.findIdx? (fun c => c == ';') with
        | none => Except.error ParseArgsError.invalidArgs
        | some pos =>
          let addrStr := String.mk (value.drop (pos + 1))
          let orcpt : OriginalRecipient := ⟨String.mk (value.take pos), addrStr⟩
          if addrOk addrStr then
            Except.ok { args with original_forward_path := some orcpt }
          else Except.error (ParseArgsError.invalidMailAddress addrStr)
    else if eqIgnoreAsciiCase key "NOTIFY".toList then
      match (pipePositions value).foldlM (notifyStep value) (0, none) with
      | Except.error e => Except.error e
      | Except.ok _ => Except.ok args
    else Except.error ParseArgsError.invalidArgs

/-- Transcribes `TryFrom<UnparsedArgs> for RcptToArgs` (command.rs lines
515-553): strip CRLF, split on whitespace, strip `<`/`>` (an empty mailbox
is rejected), validate the forward path, initialize `notify_on` to the
default `Some {success: false, failure: true, delay: false}`, then fold the
remaining tokens through `parse_arguments` (tokens without `=` are
rejected). -/
def RcptToArgs.try_from (addrOk : String → Bool) (value : Bytes) :
    Except ParseArgsError RcptToArgs :=
  match stripSuffixCRLF value with
  | none => Except.error ParseArgsError.invalidArgs
  | some value =>
    match (List.splitOnP isAsciiWhitespace value).filter
        (fun s => !s.isEmpty) with
    | [] => Except.error ParseArgsError.invalidArgs
    | first :: rest =>
      match strip_quote first with
      | none => Except.error ParseArgsError.invalidArgs
      | some mailbox =>
        if mailbox.isEmpty then Except.error ParseArgsError.invalidArgs
        else
          let mailboxStr := String.mk mailbox
          if addrOk mailboxStr then
            rest.foldlM
              (fun (acc : RcptToArgs) arg =>
                if arg.contains '=' then
                  RcptToArgs.parse_arguments addrOk acc arg
                else Except.error ParseArgsError.invalidArgs)
              { forward_path := mailboxStr, original_forward_path := none,
                notify_on := NotifyOn.set false true false }
          else Except.error (ParseArgsError.invalidMailAddress mailboxStr)

/-- Client name given in HELO/EHLO (vsmtp-common `ClientName`): domain, IPv4
or IPv6 literal (addresses kept as text). -/
inductive ClientName
  | domain (name : String)
  | ip4 (addr : String)
  | ip6 (addr : String)
deriving DecidableEq, Repr

/-- Transcribes `AuthProperties` (context.rs lines 1097-1107); the
credentials payload is opaque. -/
structure AuthProperties where
  authenticated : Bool
  cancel_count : Nat
  credentials : Option Unit
deriving DecidableEq, Repr

/-- Transcribes `ConnectProperties` (context.rs lines 1109-1130): timestamps
as seconds, uuids as numbers, addresses and names as text; the TLS payload is
opaque (only its presence matters to the claims). -/
structure ConnectProperties where
  connect_timestamp : Int
  connect_uuid : Nat
  client_addr : String
  server_addr : String
  server_name : String
  skipped : Option Status
  tls : Option Unit
  auth : Option AuthProperties
deriving DecidableEq, Repr

/-- Transcribes `HeloProperties` (context.rs lines 1132-1140). -/
structure HeloProperties where
  client_name : ClientName
  using_deprecated : Bool
deriving DecidableEq, Repr

/-- Transcribes `MailFromProperties` (context.rs lines 1142-1157); the SPF
payload is opaque. -/
structure MailFromProperties where
  reverse_path : Option String
  mail_timestamp : Int
  message_uuid : Nat
  spf : Option Unit
  utf8 : Bool
deriving DecidableEq, Repr

/-- Transcribes `TransactionType` (context.rs lines 26-42). -/
inductive TransactionType
  | incoming (domain : Option String)
  | outgoing (domain : String)
  | internal
deriving DecidableEq, Repr

/-- Transcribes `RcptToProperties` (context.rs lines 1159-1169); the
transport-keyed `delivery` map is represented as in the deferred model. -/
structure RcptToProperties where
  forward_paths : List String
  delivery : DeliveryMap
  transaction_type : TransactionType
deriving DecidableEq, Repr

/-- Transcribes `FinishedProperties` (context.rs lines 1171-1177); the DKIM
payload is opaque. -/
structure FinishedProperties where
  dkim : Option Unit
deriving DecidableEq, Repr

/-- Transcribes `Stage` (context.rs lines 44-61). -/
inductive Stage
  | connect
  | helo
  | mailFrom
  | rcptTo
  | finished
deriving DecidableEq, Repr

/-- Transcribes `Context` (context.rs lines 66-79 and 1178-1227): the
five-stage envelope, each stage carrying all earlier sub-records. -/
inductive Context
  | connect (connect : ConnectProperties)
  | helo (connect : ConnectProperties) (helo : HeloProperties)
  | mailFrom (connect : ConnectProperties) (helo : HeloProperties)
      (mail_from : MailFromProperties)
  | rcptTo (connect : ConnectProperties) (helo : HeloProperties)
      (mail_from : MailFromProperties) (rcpt_to : RcptToProperties)
  | finished (connect : ConnectProperties) (helo : HeloProperties)
      (mail_from : MailFromProperties) (rcpt_to : RcptToProperties)
      (finished : FinishedProperties)
deriving DecidableEq, Repr

/-- Transcribes `Context::stage` (context.rs lines 155-166). -/
def Context.stage : Context → Stage
  | .connect _ => Stage.connect
  | .helo _ _ => Stage.helo
  | .mailFrom _ _ _ => Stage.mailFrom
  | .rcptTo _ _ _ _ => Stage.rcptTo
  | .finished _ _ _ _ _ => Stage.finished

/-- Transcribes `Context::reset` (context.rs lines 168-183): at the Connect
stage the match arm is `Self::Connect(_) => ()` and the context is left
untouched; at every later stage the context becomes the Helo context built
from the preserved `connect` and `helo` sub-records. -/
def Context.reset : Context → Context
  | .connect c => .connect c
  | .helo c h => .helo c h
  | .mailFrom c h _ => .helo c h
  | .rcptTo c h _ _ => .helo c h
  | .finished c h _ _ _ => .helo c h

/-- Transcribes `Context::new` (context.rs lines 188-207): a fresh
Connect-stage context with no skipped status, no TLS and no auth. -/
def Context.new (client_addr server_addr : String) (server_name : String)
    (timestamp : Int) (uuid : Nat) : Context :=
  .connect
    { connect_timestamp := timestamp, connect_uuid := uuid,
      client_addr := client_addr, server_addr := server_addr,
      server_name := server_name, skipped := none, tls := none, auth := none }

/-- Transcribes `Context::to_helo` (context.rs lines 215-238): allowed at
Connect (moving to Helo) and at Helo (overwriting the record); an error at
any later stage. -/
def Context.to_helo (ctx : Context) (client_name : ClientName)
    (using_deprecated : Bool) : Option Context :=
  match ctx with
  | .connect c => some (.helo c ⟨client_name, using_deprecated⟩)
  | .helo c _ => some (.helo c ⟨client_name, using_deprecated⟩)
  | _ => none

/-- Transcribes `Context::to_mail_from` (context.rs lines 266-289): from
Helo it builds the MailFrom record with a freshly generated message uuid and
timestamp (`Uuid::new_v4()` and `now_utc()`, passed explicitly here); from
MailFrom it only replaces the reverse path; an error otherwise. -/
def Context.to_mail_from (ctx : Context) (reverse_path : Option String)
    (utf8 : Bool) (now : Int) (newUuid : Nat) : Option Context :=
  match ctx with
  | .helo c h =>
    some (.mailFrom c h
      { reverse_path := reverse_path, mail_timestamp := now,
        message_uuid := newUuid, spf := none, utf8 := utf8 })
  | .mailFrom c h mf =>
    some (.mailFrom c h { mf with reverse_path := reverse_path })
  | _ => none

/-- Connect sub-record of a context (present at every stage). -/
def Context.connectProps : Context → ConnectProperties
  | .connect c => c
  | .helo c _ => c
  | .mailFrom c _ _ => c
  | .rcptTo c _ _ _ => c
  | .finished c _ _ _ _ => c

/-- Helo sub-record of a context (absent at the Connect stage). -/
def Context.heloProps : Context → Option HeloProperties
  | .connect _ => none
  | .helo _ h => some h
  | .mailFrom _ h _ => some h
  | .rcptTo _ h _ _ => some h
  | .finished _ h _ _ _ => some h

/-- Client name recorded in a context (`Context::client_name`, context.rs
lines 464-478). -/
def Context.client_name (ctx : Context) : Option ClientName :=
  (ctx.heloProps).map HeloProperties.client_name

/-- The `using_deprecated` flag recorded in a context. -/
def Context.usingDeprecated (ctx : Context) : Option Bool :=
  (ctx.heloProps).map HeloProperties.using_deprecated

/-- Message uuid recorded in a context (`Context::message_uuid`, context.rs
lines 610-623; available from MailFrom on). -/
def Context.message_uuid : Context → Option Nat
  | .connect _ => none
  | .helo _ _ => none
  | .mailFrom _ _ mf => some mf.message_uuid
  | .rcptTo _ _ mf _ => some mf.message_uuid
  | .finished _ _ mf _ _ => some mf.message_uuid

/-- Transcribes `ContextFinished` (context.rs lines 1212-1227). -/
structure ContextFinished where
  connect : ConnectProperties
  helo : HeloProperties
  mail_from : MailFromProperties
  rcpt_to : RcptToProperties
  finished : FinishedProperties
deriving DecidableEq, Repr

/-- Transcribes the state replacement at the end of
`Handler::on_message_inner` (post_transaction.rs lines 270-304): the
per-connection state is replaced by a fresh context created at the Connect
stage from the old connection's addresses, server name, timestamp and
connection uuid, then moved to Helo with the completed transaction's client
name and `using_deprecated` flag.  (`spawn_at_connect`, whose rule-engine
source is not provided, wraps `Context::new` — context.rs lines 188-207 —
with the arguments read from the old context at the call site.) -/
def postMessageState (old : ContextFinished) : Option Context :=
  (Context.new old.connect.client_addr old.connect.server_addr
      old.connect.server_name old.connect.connect_timestamp
      old.connect.connect_uuid).to_helo
    old.helo.client_name old.helo.using_deprecated

/-- Concrete connect record (used as input of the C9 counterexample). -/
def connectEx : ConnectProperties :=
  ⟨0, 7, "192.0.2.1:45000", "198.51.100.2:25", "testserver.com",
   none, none, none⟩

/-- C1.  Evaluation of the writer at the failing inputs: the reply to DATA
(a verb the claim says must be written immediately) is pushed onto the
out-buffer and nothing reaches the socket, while the reply to MAIL FROM (a
verb the claim says may be batched) is written to the socket immediately,
flushing the previously buffered reply first.  `send_reply` thus batches
exactly the verbs EHLO, DATA, QUIT, NOOP and immediately writes all others —
the opposite of the claim (and of the doc comments of `Verb::is_bufferable`
and `WindowWriter::send_reply` in the source). -/
theorem c1_send_reply_buffers_data_and_writes_mail_from :
    WindowWriter.send_reply ⟨[], []⟩ reply354 Verb.data
        = ⟨[], [reply354]⟩ ∧
    WindowWriter.send_reply ⟨[], [reply354]⟩ reply250 Verb.mailFrom
        = ⟨[reply354, reply250], []⟩ ∧
    Verb.is_bufferable Verb.data = false ∧
    Verb.is_bufferable Verb.mailFrom = true := by
  exact ⟨rfl, rfl, rfl, rfl⟩

/-- C2.  Evaluation of the batch loop at the failing input: for the pipelined
batch `DATA\r\nRSET\r\n` (received at stage RcptTo, so DATA gets reply 354
and RSET gets 250), the handler of RSET is dispatched *before* the 354 reply
is written to the socket: the 354 sits in the out-buffer (DATA is not
`is_bufferable`) until the reply of RSET forces a flush.  The claim requires
the 354 write to precede the processing of every later command of the
batch. -/
theorem c2_rset_handler_runs_before_354_written :
    (batchTrace ⟨[], []⟩ [(Verb.data, some reply354), (Verb.rset, some reply250)]).2
        = [Event.proc Verb.data, Event.proc Verb.rset,
           Event.write reply354, Event.write reply250] ∧
    List.indexOf (Event.proc Verb.rset)
        [Event.proc Verb.data, Event.proc Verb.rset,
         Event.write reply354, Event.write reply250]
      < List.indexOf (Event.write reply354)
        [Event.proc Verb.data, Event.proc Verb.rset,
         Event.write reply354, Event.write reply250] := by
  exact ⟨rfl, by decide⟩

/-- C3 counterexample.  At the concrete input `skipped = Delegated(conn 0)`
(all queue and channel operations succeeding), message completion performs no
effect at all — no skipped-state mutation, no persistence in the delegated
queue, no send to the delegated connection — and returns the 554 `denied`
reply, which is an error reply to the client; the claim requires delegation
effects and an ending without an error reply. -/
theorem c3_delegated_verdict_returns_denied :
    on_message_completed_inner (fun _ => true) (some (Status.delegated 0)) none
        = ([], some replyDenied554) ∧
    (some replyDenied554 ≠ (none : Option Reply)) ∧
    Effect.delegateSend 0 ∉ ([] : List Effect) := by
  exact ⟨rfl, by decide, by decide⟩

/-- C3 amended.  When the PreQ verdict recorded for a completed message is
`Delegated(conn)`, `on_message_completed_inner` performs no effect and
returns the 554 `permanent problems with the remote server` reply, for every
connection and whatever the outcome of queue or channel operations would be:
PreQ-stage delegation is rejected, not performed. -/
theorem c3_delegated_verdict_rejected (conn : Nat) (ok : Effect → Bool)
    (delegationHeaderId : Option (Option Nat)) :
    on_message_completed_inner ok (some (Status.delegated conn))
        delegationHeaderId = ([], some replyDenied554) := by
  rfl

/-- Helper: `runPlan` performs a prefix of its plan. -/
theorem runPlan_prefix (ok : Effect → Bool) :
    ∀ l : List Effect, (runPlan ok l).1 <+: l := by
  intro l
  induction l with
  | nil => simp [runPlan]
  | cons e rest ih =>
    by_cases h : ok e
    · simp only [runPlan, h, if_true]
      obtain ⟨t, ht⟩ := ih
      exact ⟨t, by simp [ht]⟩
    · simp [runPlan, h]

/-- Helper: when `runPlan` reports a failure, the performed effects are a
prefix of the plan without its last element. -/
theorem runPlan_fail_prefix_dropLast (ok : Effect → Bool) :
    ∀ l : List Effect, (runPlan ok l).2 = false →
      (runPlan ok l).1 <+: l.dropLast := by
  intro l
  induction l with
  | nil => simp [runPlan]
  | cons e rest ih =>
    by_cases h : ok e
    · simp only [runPlan, h, if_true]
      intro hfin
      cases rest with
      | nil => simp [runPlan] at hfin
      | cons f rest' =>
        obtain ⟨t, ht⟩ := ih hfin
        exact ⟨t, by simp [List.dropLast, ht]⟩
    · simp [runPlan, h]

/-- Helper: `noneAfter` is closed under list prefixes. -/
theorem noneAfter_of_prefix {p q : Effect → Bool} :
    ∀ {tr l : List Effect}, tr <+: l → noneAfter p q l = true →
      noneAfter p q tr = true := by
  intro tr
  induction tr with
  | nil => intro l _ _; rfl
  | cons e tr ih =>
    intro l hpre h
    obtain ⟨t, rfl⟩ := hpre
    simp only [List.cons_append, noneAfter, Bool.and_eq_true] at h ⊢
    obtain ⟨h1, h2⟩ := h
    refine ⟨?_, ih ⟨t, rfl⟩ h2⟩
    rcases Bool.or_eq_true_iff.mp h1 with hp | hc
    · exact Bool.or_eq_true_iff.mpr (Or.inl hp)
    · refine Bool.or_eq_true_iff.mpr (Or.inr ?_)
      simp only [beq_iff_eq, List.append_eq] at hc ⊢
      have hle : tr.countP q ≤ (tr ++ t).countP q := by
        simp [List.countP_append]
      omega

/-- C8 counterexample.  On the `Next`/`None` verdict with every step
succeeding, the working processor performs, in this order: the body write,
then the rename into `deliver`, then the channel send — the body write
happens *before* the rename, while the claim prescribes the order
(1) skipped mutation, (2) `move_to`, (3) `write_msg`, (4) channel send, so
the executed trace violates the claimed discipline that no rename follows a
body write. -/
theorem c8_next_branch_writes_body_before_rename :
    working_handle_one none false (fun _ => true)
        = ([Effect.writeMsg, Effect.moveTo QueueID.working QueueID.deliver,
            Effect.sendToDelivery false], true) ∧
    noneAfter isBodyWrite isRename
        [Effect.writeMsg, Effect.moveTo QueueID.working QueueID.deliver,
         Effect.sendToDelivery false] = false := by
  exact ⟨rfl, by decide⟩

/-- C8 amended.  For every verdict, origin and failure pattern, the working
processor performs at most one queue rename and at most one body write; a
failure at any step aborts without the channel send; a channel send, when it
happens, is the final effect; the skipped-state mutation, when present,
precedes every other effect; and the rename precedes the body write exactly
in the `Quarantine` and `Delegated` branches, while in every other branch
(`Deny`, `Next`/no-status, `DelegationResult`, other skip reasons) the body
write comes first. -/
theorem c8_working_effect_order (skipped : Option Status)
    (fromDelegation : Bool) (ok : Effect → Bool) :
    (working_handle_one skipped fromDelegation ok).1.countP isRename ≤ 1 ∧
    (working_handle_one skipped fromDelegation ok).1.countP isBodyWrite ≤ 1 ∧
    ((working_handle_one skipped fromDelegation ok).2 = false →
      (working_handle_one skipped fromDelegation ok).1.countP isChannelSend
        = 0) ∧
    noneAfter isChannelSend (fun _ => true)
        (working_handle_one skipped fromDelegation ok).1 = true ∧
    noneAfter (fun e => !isSkippedMutation e) isSkippedMutation
        (working_handle_one skipped fromDelegation ok).1 = true ∧
    (match skipped with
      | some (Status.quarantine _) | some (Status.delegated _) =>
        noneAfter isBodyWrite isRename
          (working_handle_one skipped fromDelegation ok).1 = true
      | _ =>
        noneAfter isRename isBodyWrite
          (working_handle_one skipped fromDelegation ok).1 = true) := by
  have hpre := runPlan_prefix ok (workingPlan skipped
    (if fromDelegation then QueueID.delegated else QueueID.working))
  have hsub := hpre.sublist
  have hfail := runPlan_fail_prefix_dropLast ok (workingPlan skipped
    (if fromDelegation then QueueID.delegated else QueueID.working))
  simp only [working_handle_one]
  rcases skipped with _ | s <;>
    [skip; rcases s with r | _ | r | r | nm | c | _] <;>
  · simp only [workingPlan] at hpre hsub hfail ⊢
    refine ⟨?_, ?_, ?_, ?_, ?_, ?_⟩
    · exact le_trans (List.Sublist.countP_le _ hsub)
        (by simp [isRename, List.countP_cons])
    · exact le_trans (List.Sublist.countP_le _ hsub)
        (by simp [isBodyWrite, List.countP_cons])
    · intro hfin
      have h3 := List.Sublist.countP_le isChannelSend (hfail hfin).sublist
      simp only [List.dropLast, List.countP_cons, List.countP_nil,
        isChannelSend, Nat.le_zero] at h3
      simpa [isChannelSend] using h3
    · exact noneAfter_of_prefix hpre
        (by simp [noneAfter, isChannelSend, List.countP_cons])
    · exact noneAfter_of_prefix hpre
        (by simp [noneAfter, isSkippedMutation, List.countP_cons])
    · exact noneAfter_of_prefix hpre
        (by simp [noneAfter, isBodyWrite, isRename, List.countP_cons])

/-- C7 counterexample.  A concrete eligible deferred message (one recipient
held back with a single error at t = 0 s, swept at t = 1000 s) whose delivery
attempt returns MoveToDeferred: the deferred processor rewrites the context
in place in `deferred`, while the delivery processor renames into `deferred`
and then rewrites the body — the deferred dispatch is not identical to the
delivery processor's. -/
theorem c7_deferred_dispatch_not_identical :
    deferred_handle_one [[("a", TransferStatus.heldBack [0])]] 1000
        SenderOutcome.moveToDeferred
      = some [Effect.writeCtx QueueID.deferred] ∧
    deliveryDispatch QueueID.deliver SenderOutcome.moveToDeferred
      = [Effect.moveTo QueueID.deliver QueueID.deferred, Effect.writeMsg] ∧
    some [Effect.writeCtx QueueID.deferred]
      ≠ some (deliveryDispatch QueueID.deliver SenderOutcome.moveToDeferred) := by
  refine ⟨by decide, rfl, by decide⟩

/-- C7 amended.  The deferred processor skips a message — performing no
effect — exactly when some recorded HeldBack last-error timestamp `m` is
minimal among all of them (so eligibility is driven by the *earliest* of the
per-recipient last errors, and a message with no recorded HeldBack error is
never skipped) and `m + held_back_count × 5 min` lies beyond the sweep
instant, `held_back_count` being the number of HeldBack recipients; when not
skipped it dispatches the same sender-routine outcome as the delivery
processor but with deferred-specific routing: MoveToDead renames
deferred → dead, MoveToDeferred rewrites the context in place in `deferred`,
RemoveFromDisk removes both files, and the body is never rewritten. -/
theorem c7_deferred_sweep (delivery : DeliveryMap) (flushingAt : Int)
    (outcome : SenderOutcome) :
    (deferred_handle_one delivery flushingAt outcome = none ↔
      ∃ m ∈ lastErrorTimestamps delivery,
        (∀ x ∈ lastErrorTimestamps delivery, m ≤ x) ∧
        m + (heldBackCount delivery : Int) * 300 > flushingAt) ∧
    (deferred_handle_one delivery flushingAt outcome ≠ none →
      deferred_handle_one delivery flushingAt outcome
        = some (deferredDispatch outcome)) := by
  have hbase : deferred_handle_one delivery flushingAt outcome = none
      ↔ deferredSkips delivery flushingAt = true := by
    by_cases h : deferredSkips delivery flushingAt
    · simp [deferred_handle_one, h]
    · simp [deferred_handle_one, h]
  constructor
  · rw [hbase]
    unfold deferredSkips
    cases hmin : (lastErrorTimestamps delivery).min? with
    | none =>
      have hnil : lastErrorTimestamps delivery = [] :=
        List.min?_eq_none_iff.mp hmin
      simp [hnil]
    | some t =>
      haveI : Std.Antisymm (fun (x y : Int) => x ≤ y) :=
        ⟨fun h1 h2 => le_antisymm h1 h2⟩
      obtain ⟨htmem, htlb⟩ :=
        (List.min?_eq_some_iff (fun a => le_refl a) (fun a b => min_choice a b)
          (fun a b c => le_min_iff)).mp hmin
      constructor
      · intro h
        exact ⟨t, htmem, fun x hx => htlb x hx, by simpa using h⟩
      · rintro ⟨m, hmem, hlb, hcond⟩
        have heq : m = t := le_antisymm (hlb t htmem) (htlb m hmem)
        subst heq
        simpa using hcond
  · intro h
    by_cases hs : deferredSkips delivery flushingAt
    · simp [deferred_handle_one, hs] at h
    · simp [deferred_handle_one, hs]

/-- C4 counterexample.  With AUTH configured for `PLAIN` (must be under TLS)
and `ANONYMOUS` (clear allowed) and the dangerous flag unset: under TLS, the
AUTH line lists only `PLAIN` — not all advertised mechanisms as the claim
states; without TLS it lists only `ANONYMOUS` — exactly the mechanisms *not*
marked `must_be_under_tls`, the complement of what the claim states. -/
theorem c4_auth_line_wrong_partition :
    ehloAuthMechanisms esmtpEx true = some [mechPLAIN] ∧
    some [mechPLAIN] ≠ some [mechPLAIN, mechANON] ∧
    ehloAuthMechanisms esmtpEx false = some [mechANON] ∧
    some [mechANON] ≠ some [mechPLAIN] := by
  refine ⟨by decide, by decide, by decide, by decide⟩

/-- C4 amended.  With AUTH configured, the EHLO AUTH line advertises: under
TLS, exactly the mechanisms marked `must_be_under_tls` (in configuration
order); without TLS and without `enable_dangerous_mechanism_in_clair`,
exactly the mechanisms not marked `must_be_under_tls`; without TLS with the
flag set, all mechanisms, the non-TLS-requiring ones first. -/
theorem c4_auth_line_by_tls_state (auth : AuthConfig)
    (eightbitmime smtputf8 pipelining chunking : Bool) (size : Nat)
    (secured : Bool) :
    ehloAuthMechanisms
        ⟨some auth, eightbitmime, smtputf8, pipelining, chunking, size⟩
        secured
      = some (if secured then
          auth.mechanisms.filter fun m => m.must_be_under_tls
        else if auth.enable_dangerous_mechanism_in_clair then
          (auth.mechanisms.filter fun m => !m.must_be_under_tls)
            ++ auth.mechanisms.filter fun m => m.must_be_under_tls
        else
          auth.mechanisms.filter fun m => !m.must_be_under_tls) := by
  simp only [ehloAuthMechanisms, List.partition_eq_filter_filter, Option.map]
  cases secured <;>
    cases h : auth.enable_dangerous_mechanism_in_clair <;>
      simp [h, Function.comp_def]

/-- C5.  Evaluation of the RCPT TO parser at the failing inputs (with the
external address validator accepting everything): `NOTIFY=NEVER` parses
successfully but `notify_on` remains the default FAILURE value — the scanned
`notify` is never stored — and `NOTIFY=SUCCESS|FAILURE` is rejected outright
because each scanned segment retains the `|` separator; with NOTIFY omitted
the default FAILURE is returned, the only part of the claim the code
satisfies. -/
theorem c5_notify_value_never_stored :
    RcptToArgs.try_from (fun _ => true) "<a@b.com> NOTIFY=NEVER\r\n".toList
      = Except.ok ⟨"a@b.com", none, NotifyOn.set false true false⟩ ∧
    NotifyOn.set false true false ≠ NotifyOn.never ∧
    RcptToArgs.try_from (fun _ => true)
        "<a@b.com> NOTIFY=SUCCESS|FAILURE\r\n".toList
      = Except.error ParseArgsError.invalidArgs ∧
    RcptToArgs.try_from (fun _ => true) "<a@b.com>\r\n".toList
      = Except.ok ⟨"a@b.com", none, NotifyOn.set false true false⟩ := by
  refine ⟨rfl, by decide, rfl, rfl⟩

/-- C6.  Evaluation of the MAIL FROM parser at the failing input (external
address validator accepting everything): a duplicate `SIZE` parameter is
accepted, the second occurrence silently overwriting the first — the `SIZE`
arm tests `mime_body_type`, not `size` — while `SIZE` after a valid `BODY`
parameter is indeed rejected (the second conjunct), which is the only
duplicate-like check the arm performs. -/
theorem c6_duplicate_size_accepted :
    MailFromArgs.try_from (fun _ => true)
        "<a@b.com> SIZE=13 SIZE=14\r\n".toList
      = Except.ok ⟨some "a@b.com", none, some 14, false, none, none⟩ ∧
    MailFromArgs.try_from (fun _ => true)
        "<a@b.com> BODY=8BITMIME SIZE=14\r\n".toList
      = Except.error ParseArgsError.invalidArgs := by
  refine ⟨rfl, rfl⟩

/-- C9 counterexample.  On a context still at the Connect stage, `reset`
leaves the context unchanged: its stage stays `Connect`, not `Helo` as the
claim requires for every stage. -/
theorem c9_reset_is_noop_at_connect :
    (Context.connect connectEx).reset = Context.connect connectEx ∧
    (Context.connect connectEx).reset.stage = Stage.connect ∧
    Stage.connect ≠ Stage.helo := by
  refine ⟨rfl, rfl, by decide⟩

/-- C9 amended.  `reset` leaves a Connect-stage context unchanged; applied
at any later stage (Helo, MailFrom, RcptTo, Finished) it sets the stage to
exactly Helo while preserving the Connect and Helo sub-records unchanged. -/
theorem c9_reset_restores_helo (ctx : Context) :
    (ctx.stage = Stage.connect ∧ ctx.reset = ctx) ∨
    (ctx.reset.stage = Stage.helo ∧
      ctx.reset.connectProps = ctx.connectProps ∧
      ctx.reset.heloProps = ctx.heloProps) := by
  cases ctx <;>
    simp [Context.reset, Context.stage, Context.connectProps,
      Context.heloProps]

/-- C10.  After a message body is completed, the receiver's replacement
state is a context whose stage is exactly Helo, carrying the old
connection's uuid and the completed transaction's `client_name` and
`using_deprecated`; a subsequent MAIL FROM succeeds from that state and
starts a new transaction at stage MailFrom whose `message_uuid` is the
freshly generated uuid (whatever value `Uuid::new_v4` produces), with the
client name still preserved — no new HELO/EHLO is needed. -/
theorem c10_post_data_fresh_helo_context (old : ContextFinished)
    (reverse_path : Option String) (utf8 : Bool) (now : Int) (newUuid : Nat) :
    ∃ fresh : Context,
      postMessageState old = some fresh ∧
      fresh.stage = Stage.helo ∧
      fresh.client_name = some old.helo.client_name ∧
      fresh.usingDeprecated = some old.helo.using_deprecated ∧
      fresh.connectProps.connect_uuid = old.connect.connect_uuid ∧
      ∃ started : Context,
        fresh.to_mail_from reverse_path utf8 now newUuid = some started ∧
        started.stage = Stage.mailFrom ∧
        started.message_uuid = some newUuid ∧
        started.client_name = some old.helo.client_name := by
  refine ⟨_, rfl, rfl, rfl, rfl, rfl, _, rfl, rfl, rfl, rfl⟩

/-- Witness for the C7 theorem: at the concrete eligible input (no recorded
HeldBack error, so no skip), the non-skip hypothesis holds and the deferred
processor dispatches the RemoveFromDisk outcome. -/
theorem c7_deferred_sweep_witness :
    deferred_handle_one [] 0 SenderOutcome.removeFromDisk ≠ none ∧
    deferred_handle_one [] 0 SenderOutcome.removeFromDisk
      = some (deferredDispatch SenderOutcome.removeFromDisk) :=
  ⟨by decide,
   (c7_deferred_sweep [] 0 SenderOutcome.removeFromDisk).2 (by decide)⟩

/-- Witness for the C8 theorem: with an oracle failing every step on the
`Next` verdict, the run reports failure and the abort-without-channel-send
conjunct applies, giving a trace without any channel send. -/
theorem c8_working_effect_order_witness :
    (working_handle_one (some Status.next) false (fun _ => false)).2
        = false ∧
    (working_handle_one (some Status.next) false
        (fun _ => false)).1.countP isChannelSend = 0 :=
  ⟨rfl,
   (c8_working_effect_order (some Status.next) false (fun _ => false)).2.2.1
     rfl⟩
